import Mathlib

/-!
Shallow embedding of the Kavak monitor backend
(src/backend/app.py and src/backend/app_improved.py).

Time is modelled as an integer number of minutes; a Python `datetime`
value `t` has calendar date `t.fdiv 1440` (its day index) and
`timedelta(...).days` of a difference of `d` minutes is `d.fdiv 1440`
(Python floors the day component toward minus infinity).  External
effects (HTTP probes, Telegram calls) are passed in as explicit
outcome parameters.
-/

namespace Kavak

/-- Environment defaults of app_improved.py: FALHAS_PARA_VENDA. -/
def FALHAS_PARA_VENDA : Nat := 3

/-- Environment defaults of app_improved.py: LIMITE_FALHAS_SISTEMICAS (percent). -/
def LIMITE_FALHAS_SISTEMICAS : Nat := 70

/-- Environment defaults of app_improved.py: QUARENTENA_MINUTOS. -/
def QUARENTENA_MINUTOS : Int := 30

/-- Default batch size of both backends. -/
def BATCH_SIZE : Nat := 50

/-- app.py: PRAZO_DAYS = 45 (payment window in calendar days). -/
def PRAZO_DAYS : Int := 45

/-- Minutes in one day, for the integer clock model. -/
def minutosPorDia : Int := 1440

/-- Calendar date (day index) of a datetime, Python `.date()`. -/
def dataDe (t : Int) : Int := t.fdiv minutosPorDia

/-- Day component of a minute difference, Python `timedelta.days` (floors). -/
def diasDelta (d : Int) : Int := d.fdiv minutosPorDia

/-- Hour-of-day of a datetime, Python `.hour`. -/
def horaDe (t : Int) : Int := (t.emod minutosPorDia).fdiv 60

/-- Python `.weekday()` (Monday = 0); day 0 of the model is a Thursday
as on the Unix epoch, hence the +3 shift. -/
def diaSemanaDe (t : Int) : Int := (dataDe t + 3).emod 7

/-- TipoErro enum of app_improved.py. -/
inductive TipoErro where
  | sucesso
  | timeout
  | dns_error
  | connection_error
  | http_404
  | http_500
  | http_other
  | unknown
deriving DecidableEq, Repr

/-- Notification channel stored in `tipo_notificacao`. -/
inductive Canal where
  | telegram
  | whatsapp
  | outro
deriving DecidableEq, Repr

/-- Values the `status` column takes in the monitoring loop. -/
inductive Status where
  | ativo
  | expirado
deriving DecidableEq, Repr

/-- One row of the `monitoramentos` table (fields the loop reads/writes).
`data_venda` and timestamps are datetimes in minutes. -/
structure Monitoramento where
  id : Nat
  data_venda : Int
  tipo_notificacao : Canal
  status : Status
  carro_vendido : Bool
  notificado_venda : Bool
  notificado_prazo : Bool
  notificado_expirado : Bool
  falhas_consecutivas : Nat
  ultimo_erro : Option TipoErro
  ultima_verificacao : Int
  ultima_notificacao_semanal : Option Int
deriving DecidableEq, Repr

/-- The `updates` dict built by `processar_monitoramento`: a field is
`some v` exactly when the corresponding key is present.  The
`notif_*_enviada` flags record that `enviar_notificacao` was called for
that message (the dispatch attempt), which the dict itself does not
carry. -/
structure Updates where
  ultima_verificacao : Option Int
  status : Option Status
  falhas_consecutivas : Option Nat
  ultimo_erro : Option (Option TipoErro)
  carro_vendido : Option Bool
  notificado_venda : Option Bool
  notificado_prazo : Option Bool
  notificado_expirado : Option Bool
  ultima_notificacao_semanal : Option Int
  notif_venda_enviada : Bool
  notif_prazo_enviada : Bool
  notif_expirado_enviada : Bool
  notif_semanal_enviada : Bool
deriving DecidableEq, Repr

/-- The empty updates dict. -/
def Updates.vazio : Updates :=
  ⟨none, none, none, none, none, none, none, none, none, false, false, false, false⟩

/-- Outcome of one outbound HTTP GET of a resource URL, as the
`requests` library surfaces it to the caller. -/
inductive ProbeResult where
  | response (statusCode : Nat)
  | timeoutExc
  | connExc (dnsLike : Bool)
  | otherExc
deriving DecidableEq, Repr

/-- app_improved.py `verificar_link_detalhado`: classify one probe
outcome into (online, TipoErro). -/
def verificar_link_detalhado : ProbeResult → Bool × TipoErro
  | .response c =>
      if c = 200 then (true, .sucesso)
      else if c = 404 then (false, .http_404)
      else if c ≥ 500 then (false, .http_500)
      else (false, .http_other)
  | .timeoutExc => (false, .timeout)
  | .connExc true => (false, .dns_error)
  | .connExc false => (false, .connection_error)
  | .otherExc => (false, .unknown)

/-- Applying an updates dict to a row (the UPDATE statement of the
persistence step). -/
def aplicar (mon : Monitoramento) (u : Updates) : Monitoramento :=
  { mon with
    ultima_verificacao := u.ultima_verificacao.getD mon.ultima_verificacao
    status := u.status.getD mon.status
    falhas_consecutivas := u.falhas_consecutivas.getD mon.falhas_consecutivas
    ultimo_erro := u.ultimo_erro.getD mon.ultimo_erro
    carro_vendido := u.carro_vendido.getD mon.carro_vendido
    notificado_venda := u.notificado_venda.getD mon.notificado_venda
    notificado_prazo := u.notificado_prazo.getD mon.notificado_prazo
    notificado_expirado := u.notificado_expirado.getD mon.notificado_expirado
    ultima_notificacao_semanal :=
      match u.ultima_notificacao_semanal with
      | some t => some t
      | none => mon.ultima_notificacao_semanal }

namespace Improved

/-- app_improved.py `enviar_notificacao`.  `telegram_entrega` is the
outcome of the external Telegram API call (`enviar_notificacao_telegram`:
token configured and HTTP 200); the WhatsApp branch is the placeholder
`enviar_notificacao_whatsapp`, which always returns True. -/
def enviar_notificacao (tipo : Canal) (telegram_entrega : Bool) : Bool :=
  match tipo with
  | .telegram => telegram_entrega
  | .whatsapp => true
  | .outro => false

/-- app_improved.py inline expression
`(data_venda + timedelta(days=45) - datetime.now()).days`:
the day count uses the full datetimes, no date truncation. -/
def dias_restantes_calc (data_venda now : Int) : Int :=
  diasDelta (data_venda + 45 * minutosPorDia - now)

/-- app_improved.py local list `erros_suspeitos` and the membership
test `tipo_erro in erros_suspeitos`. -/
def erro_suspeito (e : TipoErro) : Bool :=
  e = .timeout ∨ e = .dns_error ∨ e = .connection_error ∨ e = .http_500

/-- app_improved.py local `falhas_necessarias`: one extra failure is
demanded when the recorded error kind is ambiguous/systemic. -/
def falhas_necessarias (e : TipoErro) : Nat :=
  if erro_suspeito e then FALHAS_PARA_VENDA + 1 else FALHAS_PARA_VENDA

/-- Sale-notification block of app_improved.py `processar_monitoramento`
(`if not monitoramento['notificado_venda']: ...`), applied to the
updates dict `ub` built so far. -/
def venda_notifica (mon : Monitoramento) (entrega_venda : Bool)
    (ub : Updates) : Updates :=
  if ¬mon.notificado_venda then
    let uc := { ub with notif_venda_enviada := true }
    if enviar_notificacao mon.tipo_notificacao entrega_venda then
      { uc with notificado_venda := some true }
    else uc
  else ub

/-- Sold-marking block of app_improved.py `processar_monitoramento`
(`if not sistema_em_quarentena: updates['carro_vendido'] = 1 ...`). -/
def ramo_venda (mon : Monitoramento) (sistema_em_quarentena entrega_venda : Bool)
    (ua : Updates) : Updates :=
  if ¬sistema_em_quarentena then
    venda_notifica mon entrega_venda { ua with carro_vendido := some true }
  else ua

/-- Offline branch of app_improved.py `processar_monitoramento`
(`if not link_online: ...`): increment the failure counter, record the
error kind, and mark the car sold once enough failures accumulated. -/
def ramo_offline (mon : Monitoramento) (tipo_erro : TipoErro)
    (sistema_em_quarentena entrega_venda : Bool) (u0 : Updates) : Updates :=
  let falhas := mon.falhas_consecutivas + 1
  let ua := { u0 with falhas_consecutivas := some falhas
                      ultimo_erro := some (some tipo_erro) }
  if falhas ≥ falhas_necessarias tipo_erro ∧ ¬mon.carro_vendido then
    ramo_venda mon sistema_em_quarentena entrega_venda ua
  else ua

/-- Online branch of app_improved.py `processar_monitoramento`: reset
the failure counter when it was positive. -/
def ramo_online (mon : Monitoramento) (u0 : Updates) : Updates :=
  if mon.falhas_consecutivas > 0 then
    { u0 with falhas_consecutivas := some 0
              ultimo_erro := some none }
  else u0

/-- Deadline-alert block of app_improved.py `processar_monitoramento`
(`if dias_restantes <= 5 and dias_restantes > 0 and not ...`). -/
def ramo_prazo (mon : Monitoramento) (dias_restantes : Int)
    (entrega_prazo : Bool) (u1 : Updates) : Updates :=
  if dias_restantes ≤ 5 ∧ dias_restantes > 0 ∧ ¬mon.notificado_prazo then
    let u2 := { u1 with notif_prazo_enviada := true }
    if enviar_notificacao mon.tipo_notificacao entrega_prazo then
      { u2 with notificado_prazo := some true }
    else u2
  else u1

/-- app_improved.py `processar_monitoramento`.  `probe` is the outcome
of the single HTTP GET issued by `verificar_link`; `sistema_em_quarentena`
is the process-wide quarantine flag read inside the sale branch;
`entrega_venda`/`entrega_prazo` are the Telegram delivery outcomes of
the two possible messages. -/
def processar_monitoramento (mon : Monitoramento) (now : Int)
    (probe : ProbeResult) (sistema_em_quarentena : Bool)
    (entrega_venda entrega_prazo : Bool) : Updates :=
  let dias_restantes := dias_restantes_calc mon.data_venda now
  let u0 := { Updates.vazio with ultima_verificacao := some now }
  if dias_restantes < 0 then
    { u0 with status := some .expirado }
  else
    let res := verificar_link_detalhado probe
    let u1 :=
      if !res.1 then
        ramo_offline mon res.2 sistema_em_quarentena entrega_venda u0
      else ramo_online mon u0
    ramo_prazo mon dias_restantes entrega_prazo u1

end Improved

namespace App

/-- app.py `enviar_notificacao`: only the Telegram channel exists;
any other `tipo_notificacao` returns False. -/
def enviar_notificacao (tipo : Canal) (telegram_entrega : Bool) : Bool :=
  match tipo with
  | .telegram => telegram_entrega
  | _ => false

/-- app.py `verificar_link_com_cache`: True exactly on an HTTP 200
response, False on any other status or any exception. -/
def verificar_link_com_cache (probe : ProbeResult) : Bool :=
  match probe with
  | .response c => c = 200
  | _ => false

/-- app.py `calcular_dias_restantes`: both the sale date and today are
truncated to calendar dates, the deadline is the sale date plus
PRAZO_DAYS, and the remaining-day count is clamped at 0.  Returns
(dias_restantes, prazo_final) with `prazo_final` the midnight datetime
of the deadline date. -/
def calcular_dias_restantes (data_venda now : Int) : Int × Int :=
  let data_venda_date := dataDe data_venda
  let hoje_date := dataDe now
  let prazo_final_date := data_venda_date + PRAZO_DAYS
  let dias_restantes := max 0 (prazo_final_date - hoje_date)
  (dias_restantes, prazo_final_date * minutosPorDia)

/-- Expiry branch of app.py `processar_monitoramento`
(`if dias_restantes <= 0: ...`): deactivate the item and attempt the
one-time expiry notification. -/
def ramo_expirado (mon : Monitoramento) (entrega_expirado : Bool)
    (u0 : Updates) : Updates :=
  let ua := { u0 with status := some .expirado }
  if ¬mon.notificado_expirado then
    let ub := { ua with notif_expirado_enviada := true }
    if enviar_notificacao mon.tipo_notificacao entrega_expirado then
      { ub with notificado_expirado := some true }
    else ub
  else ua

/-- Offline branch of app.py `processar_monitoramento`: increment the
failure counter and mark sold after 2 consecutive failures. -/
def ramo_offline (mon : Monitoramento) (entrega_venda : Bool)
    (u0 : Updates) : Updates :=
  let falhas := mon.falhas_consecutivas + 1
  let ua := { u0 with falhas_consecutivas := some falhas }
  if falhas ≥ 2 ∧ ¬mon.carro_vendido then
    let ub := { ua with carro_vendido := some true }
    if ¬mon.notificado_venda then
      let uc := { ub with notif_venda_enviada := true }
      if enviar_notificacao mon.tipo_notificacao entrega_venda then
        { uc with notificado_venda := some true }
      else uc
    else ub
  else ua

/-- Online branch of app.py `processar_monitoramento`: reset the
failure counter when it was positive. -/
def ramo_online (mon : Monitoramento) (u0 : Updates) : Updates :=
  if mon.falhas_consecutivas > 0 then
    { u0 with falhas_consecutivas := some 0 }
  else u0

/-- Deadline-alert block of app.py `processar_monitoramento`. -/
def ramo_prazo (mon : Monitoramento) (dias_restantes : Int)
    (entrega_prazo : Bool) (u1 : Updates) : Updates :=
  if dias_restantes ≤ 5 ∧ dias_restantes > 0 ∧ ¬mon.notificado_prazo then
    let ua := { u1 with notif_prazo_enviada := true }
    if enviar_notificacao mon.tipo_notificacao entrega_prazo then
      { ua with notificado_prazo := some true }
    else ua
  else u1

/-- Weekly-status block of app.py `processar_monitoramento`: on Friday
between 10:00 and 10:59, send at most one status update per calendar
date while the car is unsold and active. -/
def ramo_semanal (mon : Monitoramento) (now dias_restantes : Int)
    (entrega_semanal : Bool) (u2 : Updates) : Updates :=
  if ¬mon.carro_vendido ∧ mon.status = .ativo then
    let data_venda := dataDe mon.data_venda * minutosPorDia
    let dias_desde_venda := diasDelta (now - data_venda)
    let deve_notificar_semanal :=
      if diaSemanaDe now = 4 ∧ horaDe now = 10 then
        match mon.ultima_notificacao_semanal with
        | none => dias_desde_venda ≥ 1
        | some t => dataDe t < dataDe now
      else false
    if deve_notificar_semanal ∧ dias_restantes > 0 then
      let ua := { u2 with notif_semanal_enviada := true }
      if enviar_notificacao mon.tipo_notificacao entrega_semanal then
        { ua with ultima_notificacao_semanal := some now }
      else ua
    else u2
  else u2

/-- app.py `processar_monitoramento`.  `probe` feeds `verificar_link`;
the four `entrega_*` parameters are the Telegram delivery outcomes of
the respective messages (expiry, sale, deadline, weekly). -/
def processar_monitoramento (mon : Monitoramento) (now : Int)
    (probe : ProbeResult)
    (entrega_expirado entrega_venda entrega_prazo entrega_semanal : Bool) :
    Updates :=
  let r := calcular_dias_restantes mon.data_venda now
  let dias_restantes := r.1
  let u0 := { Updates.vazio with ultima_verificacao := some now }
  if dias_restantes ≤ 0 then
    ramo_expirado mon entrega_expirado u0
  else
    let link_online := verificar_link_com_cache probe
    let u1 :=
      if !link_online then ramo_offline mon entrega_venda u0
      else ramo_online mon u0
    let u2 := ramo_prazo mon dias_restantes entrega_prazo u1
    ramo_semanal mon now dias_restantes entrega_semanal u2

end App

/-- Process-wide quarantine flags of app_improved.py
(`sistema_em_quarentena`, `quarentena_ate`). -/
structure Quarentena where
  ativa : Bool
  ate : Option Int
deriving DecidableEq, Repr

/-- One row of the `system_health` table, as inserted by the systemic
failure branch of `verificar_monitoramentos`. -/
structure SystemHealthSample where
  total_verificados : Nat
  total_falhas : Nat
  porcentagem_falhas : ℚ
  sistema_saudavel : Bool
deriving DecidableEq, Repr

/-- Per-item external environment of one cycle: the monitored row and
the outcomes of the outbound calls its processing may make. -/
structure ItemCiclo where
  mon : Monitoramento
  probe : ProbeResult
  entrega_venda : Bool
  entrega_prazo : Bool
deriving DecidableEq, Repr

/-- Observable outcome of one run of `verificar_monitoramentos`:
final quarantine flags, the collected updates (paired with their input
rows), the health row inserted (if any), and whether the cycle aborted
at the connectivity preflight. -/
structure ResultadoCiclo where
  quarentena : Quarentena
  updates_list : List (Monitoramento × Updates)
  health : Option SystemHealthSample
  abortado : Bool
deriving DecidableEq, Repr

/-- The `total_falhas` counting loop of PASSO 5 of
`verificar_monitoramentos`: items whose updates dict carries
`falhas_consecutivas > 0` (`updates.get('falhas_consecutivas', 0) > 0`). -/
def total_falhas_contadas (ul : List (Monitoramento × Updates)) : Nat :=
  (ul.filter fun mu => decide (mu.2.falhas_consecutivas.getD 0 > 0)).length

/-- The expression `(total_falhas / len(monitoramentos)) * 100` of
PASSO 6 of `verificar_monitoramentos`. -/
def porcentagem_de (total len : Nat) : ℚ :=
  ((total : ℚ) / (len : ℚ)) * 100

namespace Improved

/-- PASSO 1 of `verificar_monitoramentos`: lazy expiry of the
quarantine flags (only acts when both flags are truthy). -/
def passo1 (q : Quarentena) (now : Int) : Quarentena :=
  if q.ativa then
    match q.ate with
    | some t => if now < t then q else ⟨false, none⟩
    | none => q
  else q

/-- app_improved.py `verificar_monitoramentos` as a function of the
prior quarantine flags, the clock, the preflight outcomes
(`verificar_conectividade_servidor`, `verificar_saude_kavak`: True when
any of their test endpoints answered 200) and the fetched batch with
its per-item environments. -/
def verificar_monitoramentos (q : Quarentena) (now : Int)
    (tem_internet kavak_online : Bool) (batch : List ItemCiclo) :
    ResultadoCiclo :=
  let q1 := passo1 q now
  if ¬tem_internet then ⟨q1, [], none, true⟩
  else
    let q2 := if ¬kavak_online then ⟨true, some (now + QUARENTENA_MINUTOS)⟩ else q1
    if batch.isEmpty then ⟨q2, [], none, false⟩
    else
      let updates_list := batch.map fun ic =>
        (ic.mon, processar_monitoramento ic.mon now ic.probe q2.ativa
          ic.entrega_venda ic.entrega_prazo)
      let total_falhas := total_falhas_contadas updates_list
      let porcentagem_falhas := porcentagem_de total_falhas batch.length
      if porcentagem_falhas ≥ (LIMITE_FALHAS_SISTEMICAS : ℚ) then
        ⟨⟨true, some (now + QUARENTENA_MINUTOS)⟩, updates_list,
          some ⟨batch.length, total_falhas, porcentagem_falhas, false⟩, false⟩
      else ⟨q2, updates_list, none, false⟩

end Improved

/-- The batch fetch shared by both backends:
`SELECT * FROM monitoramentos WHERE status = 'ativo'
ORDER BY ultima_verificacao ASC LIMIT BATCH_SIZE`. -/
def selecionar_ativos (db : List Monitoramento) : List Monitoramento :=
  ((db.filter fun m => m.status = .ativo).mergeSort
    fun a b => a.ultima_verificacao ≤ b.ultima_verificacao).take BATCH_SIZE

/-! Field-level characterizations of the branch helpers, used to reason
about the two `processar_monitoramento` functions compositionally. -/

namespace Improved

@[simp] theorem venda_notifica_status (mon : Monitoramento) (e : Bool) (ub : Updates) :
    (venda_notifica mon e ub).status = ub.status := by
  simp only [venda_notifica]; split_ifs <;> first | rfl | simp_all

@[simp] theorem venda_notifica_falhas (mon : Monitoramento) (e : Bool) (ub : Updates) :
    (venda_notifica mon e ub).falhas_consecutivas = ub.falhas_consecutivas := by
  simp only [venda_notifica]; split_ifs <;> first | rfl | simp_all

@[simp] theorem venda_notifica_erro (mon : Monitoramento) (e : Bool) (ub : Updates) :
    (venda_notifica mon e ub).ultimo_erro = ub.ultimo_erro := by
  simp only [venda_notifica]; split_ifs <;> first | rfl | simp_all

@[simp] theorem venda_notifica_vendido (mon : Monitoramento) (e : Bool) (ub : Updates) :
    (venda_notifica mon e ub).carro_vendido = ub.carro_vendido := by
  simp only [venda_notifica]; split_ifs <;> first | rfl | simp_all

@[simp] theorem venda_notifica_prazo (mon : Monitoramento) (e : Bool) (ub : Updates) :
    (venda_notifica mon e ub).notificado_prazo = ub.notificado_prazo := by
  simp only [venda_notifica]; split_ifs <;> first | rfl | simp_all

@[simp] theorem venda_notifica_prazo_flag (mon : Monitoramento) (e : Bool) (ub : Updates) :
    (venda_notifica mon e ub).notif_prazo_enviada = ub.notif_prazo_enviada := by
  simp only [venda_notifica]; split_ifs <;> first | rfl | simp_all

@[simp] theorem venda_notifica_exp_flag (mon : Monitoramento) (e : Bool) (ub : Updates) :
    (venda_notifica mon e ub).notif_expirado_enviada = ub.notif_expirado_enviada := by
  simp only [venda_notifica]; split_ifs <;> first | rfl | simp_all

@[simp] theorem venda_notifica_flag (mon : Monitoramento) (e : Bool) (ub : Updates) :
    (venda_notifica mon e ub).notif_venda_enviada =
      if mon.notificado_venda = false then true else ub.notif_venda_enviada := by
  simp only [venda_notifica]; split_ifs <;> simp_all

@[simp] theorem venda_notifica_marcador (mon : Monitoramento) (e : Bool) (ub : Updates) :
    (venda_notifica mon e ub).notificado_venda =
      if mon.notificado_venda = false ∧ enviar_notificacao mon.tipo_notificacao e = true
      then some true else ub.notificado_venda := by
  simp only [venda_notifica]; split_ifs <;> simp_all

@[simp] theorem ramo_venda_status (mon : Monitoramento) (q e : Bool) (ua : Updates) :
    (ramo_venda mon q e ua).status = ua.status := by
  simp only [ramo_venda]; split_ifs <;> simp

@[simp] theorem ramo_venda_falhas (mon : Monitoramento) (q e : Bool) (ua : Updates) :
    (ramo_venda mon q e ua).falhas_consecutivas = ua.falhas_consecutivas := by
  simp only [ramo_venda]; split_ifs <;> simp

@[simp] theorem ramo_venda_erro (mon : Monitoramento) (q e : Bool) (ua : Updates) :
    (ramo_venda mon q e ua).ultimo_erro = ua.ultimo_erro := by
  simp only [ramo_venda]; split_ifs <;> simp

@[simp] theorem ramo_venda_prazo (mon : Monitoramento) (q e : Bool) (ua : Updates) :
    (ramo_venda mon q e ua).notificado_prazo = ua.notificado_prazo := by
  simp only [ramo_venda]; split_ifs <;> simp

@[simp] theorem ramo_venda_prazo_flag (mon : Monitoramento) (q e : Bool) (ua : Updates) :
    (ramo_venda mon q e ua).notif_prazo_enviada = ua.notif_prazo_enviada := by
  simp only [ramo_venda]; split_ifs <;> simp

@[simp] theorem ramo_venda_exp_flag (mon : Monitoramento) (q e : Bool) (ua : Updates) :
    (ramo_venda mon q e ua).notif_expirado_enviada = ua.notif_expirado_enviada := by
  simp only [ramo_venda]; split_ifs <;> simp

@[simp] theorem ramo_venda_vendido (mon : Monitoramento) (q e : Bool) (ua : Updates) :
    (ramo_venda mon q e ua).carro_vendido =
      if q = false then some true else ua.carro_vendido := by
  simp only [ramo_venda]; split_ifs <;> simp_all

@[simp] theorem ramo_venda_flag (mon : Monitoramento) (q e : Bool) (ua : Updates) :
    (ramo_venda mon q e ua).notif_venda_enviada =
      if q = false ∧ mon.notificado_venda = false then true
      else ua.notif_venda_enviada := by
  simp only [ramo_venda]
  split_ifs with h1 h2 <;> simp_all

@[simp] theorem ramo_venda_marcador (mon : Monitoramento) (q e : Bool) (ua : Updates) :
    (ramo_venda mon q e ua).notificado_venda =
      if q = false ∧ mon.notificado_venda = false ∧
          enviar_notificacao mon.tipo_notificacao e = true
      then some true else ua.notificado_venda := by
  simp only [ramo_venda]
  split_ifs <;> simp_all

@[simp] theorem ramo_offline_falhas (mon : Monitoramento) (t : TipoErro)
    (q e : Bool) (u0 : Updates) :
    (ramo_offline mon t q e u0).falhas_consecutivas
      = some (mon.falhas_consecutivas + 1) := by
  simp only [ramo_offline]; split_ifs <;> simp

@[simp] theorem ramo_offline_erro (mon : Monitoramento) (t : TipoErro)
    (q e : Bool) (u0 : Updates) :
    (ramo_offline mon t q e u0).ultimo_erro = some (some t) := by
  simp only [ramo_offline]; split_ifs <;> simp

@[simp] theorem ramo_offline_status (mon : Monitoramento) (t : TipoErro)
    (q e : Bool) (u0 : Updates) :
    (ramo_offline mon t q e u0).status = u0.status := by
  simp only [ramo_offline]; split_ifs <;> simp

@[simp] theorem ramo_offline_prazo (mon : Monitoramento) (t : TipoErro)
    (q e : Bool) (u0 : Updates) :
    (ramo_offline mon t q e u0).notificado_prazo = u0.notificado_prazo := by
  simp only [ramo_offline]; split_ifs <;> simp

@[simp] theorem ramo_offline_prazo_flag (mon : Monitoramento) (t : TipoErro)
    (q e : Bool) (u0 : Updates) :
    (ramo_offline mon t q e u0).notif_prazo_enviada = u0.notif_prazo_enviada := by
  simp only [ramo_offline]; split_ifs <;> simp

@[simp] theorem ramo_offline_exp_flag (mon : Monitoramento) (t : TipoErro)
    (q e : Bool) (u0 : Updates) :
    (ramo_offline mon t q e u0).notif_expirado_enviada = u0.notif_expirado_enviada := by
  simp only [ramo_offline]; split_ifs <;> simp

@[simp] theorem ramo_offline_vendido (mon : Monitoramento) (t : TipoErro)
    (q e : Bool) (u0 : Updates) :
    (ramo_offline mon t q e u0).carro_vendido =
      if (mon.falhas_consecutivas + 1 ≥ falhas_necessarias t ∧
          mon.carro_vendido = false) ∧ q = false
      then some true else u0.carro_vendido := by
  simp only [ramo_offline]
  split_ifs <;> simp_all

@[simp] theorem ramo_offline_flag (mon : Monitoramento) (t : TipoErro)
    (q e : Bool) (u0 : Updates) :
    (ramo_offline mon t q e u0).notif_venda_enviada =
      if (mon.falhas_consecutivas + 1 ≥ falhas_necessarias t ∧
          mon.carro_vendido = false) ∧ q = false ∧ mon.notificado_venda = false
      then true else u0.notif_venda_enviada := by
  simp only [ramo_offline]
  split_ifs <;> simp_all

@[simp] theorem ramo_offline_marcador (mon : Monitoramento) (t : TipoErro)
    (q e : Bool) (u0 : Updates) :
    (ramo_offline mon t q e u0).notificado_venda =
      if (mon.falhas_consecutivas + 1 ≥ falhas_necessarias t ∧
          mon.carro_vendido = false) ∧ q = false ∧ mon.notificado_venda = false ∧
          enviar_notificacao mon.tipo_notificacao e = true
      then some true else u0.notificado_venda := by
  simp only [ramo_offline]
  split_ifs <;> simp_all

@[simp] theorem ramo_online_falhas (mon : Monitoramento) (u0 : Updates) :
    (ramo_online mon u0).falhas_consecutivas =
      if mon.falhas_consecutivas > 0 then some 0 else u0.falhas_consecutivas := by
  simp only [ramo_online]; split_ifs <;> simp

@[simp] theorem ramo_online_erro (mon : Monitoramento) (u0 : Updates) :
    (ramo_online mon u0).ultimo_erro =
      if mon.falhas_consecutivas > 0 then some none else u0.ultimo_erro := by
  simp only [ramo_online]; split_ifs <;> simp

@[simp] theorem ramo_online_status (mon : Monitoramento) (u0 : Updates) :
    (ramo_online mon u0).status = u0.status := by
  simp only [ramo_online]; split_ifs <;> first | rfl | simp_all

@[simp] theorem ramo_online_vendido (mon : Monitoramento) (u0 : Updates) :
    (ramo_online mon u0).carro_vendido = u0.carro_vendido := by
  simp only [ramo_online]; split_ifs <;> first | rfl | simp_all

@[simp] theorem ramo_online_marcador (mon : Monitoramento) (u0 : Updates) :
    (ramo_online mon u0).notificado_venda = u0.notificado_venda := by
  simp only [ramo_online]; split_ifs <;> first | rfl | simp_all

@[simp] theorem ramo_online_flag (mon : Monitoramento) (u0 : Updates) :
    (ramo_online mon u0).notif_venda_enviada = u0.notif_venda_enviada := by
  simp only [ramo_online]; split_ifs <;> first | rfl | simp_all

@[simp] theorem ramo_online_prazo (mon : Monitoramento) (u0 : Updates) :
    (ramo_online mon u0).notificado_prazo = u0.notificado_prazo := by
  simp only [ramo_online]; split_ifs <;> first | rfl | simp_all

@[simp] theorem ramo_online_prazo_flag (mon : Monitoramento) (u0 : Updates) :
    (ramo_online mon u0).notif_prazo_enviada = u0.notif_prazo_enviada := by
  simp only [ramo_online]; split_ifs <;> first | rfl | simp_all

@[simp] theorem ramo_online_exp_flag (mon : Monitoramento) (u0 : Updates) :
    (ramo_online mon u0).notif_expirado_enviada = u0.notif_expirado_enviada := by
  simp only [ramo_online]; split_ifs <;> first | rfl | simp_all

@[simp] theorem ramo_prazo_status (mon : Monitoramento) (d : Int) (e : Bool) (u1 : Updates) :
    (ramo_prazo mon d e u1).status = u1.status := by
  simp only [ramo_prazo]; split_ifs <;> first | rfl | simp_all

@[simp] theorem ramo_prazo_falhas (mon : Monitoramento) (d : Int) (e : Bool) (u1 : Updates) :
    (ramo_prazo mon d e u1).falhas_consecutivas = u1.falhas_consecutivas := by
  simp only [ramo_prazo]; split_ifs <;> first | rfl | simp_all

@[simp] theorem ramo_prazo_erro (mon : Monitoramento) (d : Int) (e : Bool) (u1 : Updates) :
    (ramo_prazo mon d e u1).ultimo_erro = u1.ultimo_erro := by
  simp only [ramo_prazo]; split_ifs <;> first | rfl | simp_all

@[simp] theorem ramo_prazo_vendido (mon : Monitoramento) (d : Int) (e : Bool) (u1 : Updates) :
    (ramo_prazo mon d e u1).carro_vendido = u1.carro_vendido := by
  simp only [ramo_prazo]; split_ifs <;> first | rfl | simp_all

@[simp] theorem ramo_prazo_marcador_venda (mon : Monitoramento) (d : Int) (e : Bool) (u1 : Updates) :
    (ramo_prazo mon d e u1).notificado_venda = u1.notificado_venda := by
  simp only [ramo_prazo]; split_ifs <;> first | rfl | simp_all

@[simp] theorem ramo_prazo_flag_venda (mon : Monitoramento) (d : Int) (e : Bool) (u1 : Updates) :
    (ramo_prazo mon d e u1).notif_venda_enviada = u1.notif_venda_enviada := by
  simp only [ramo_prazo]; split_ifs <;> first | rfl | simp_all

@[simp] theorem ramo_prazo_exp_flag (mon : Monitoramento) (d : Int) (e : Bool) (u1 : Updates) :
    (ramo_prazo mon d e u1).notif_expirado_enviada = u1.notif_expirado_enviada := by
  simp only [ramo_prazo]; split_ifs <;> first | rfl | simp_all

@[simp] theorem venda_notifica_exp_marcador (mon : Monitoramento) (e : Bool) (ub : Updates) :
    (venda_notifica mon e ub).notificado_expirado = ub.notificado_expirado := by
  simp only [venda_notifica]; split_ifs <;> first | rfl | simp_all

@[simp] theorem ramo_venda_exp_marcador (mon : Monitoramento) (q e : Bool) (ua : Updates) :
    (ramo_venda mon q e ua).notificado_expirado = ua.notificado_expirado := by
  simp only [ramo_venda]; split_ifs <;> simp

@[simp] theorem ramo_offline_exp_marcador (mon : Monitoramento) (t : TipoErro)
    (q e : Bool) (u0 : Updates) :
    (ramo_offline mon t q e u0).notificado_expirado = u0.notificado_expirado := by
  simp only [ramo_offline]; split_ifs <;> simp

@[simp] theorem ramo_online_exp_marcador (mon : Monitoramento) (u0 : Updates) :
    (ramo_online mon u0).notificado_expirado = u0.notificado_expirado := by
  simp only [ramo_online]; split_ifs <;> first | rfl | simp_all

@[simp] theorem ramo_prazo_exp_marcador (mon : Monitoramento) (d : Int) (e : Bool) (u1 : Updates) :
    (ramo_prazo mon d e u1).notificado_expirado = u1.notificado_expirado := by
  simp only [ramo_prazo]; split_ifs <;> first | rfl | simp_all

@[simp] theorem ramo_prazo_flag (mon : Monitoramento) (d : Int) (e : Bool) (u1 : Updates) :
    (ramo_prazo mon d e u1).notif_prazo_enviada =
      if d ≤ 5 ∧ d > 0 ∧ mon.notificado_prazo = false then true
      else u1.notif_prazo_enviada := by
  simp only [ramo_prazo]; split_ifs <;> simp_all

@[simp] theorem ramo_prazo_marcador (mon : Monitoramento) (d : Int) (e : Bool) (u1 : Updates) :
    (ramo_prazo mon d e u1).notificado_prazo =
      if (d ≤ 5 ∧ d > 0 ∧ mon.notificado_prazo = false) ∧
          enviar_notificacao mon.tipo_notificacao e = true
      then some true else u1.notificado_prazo := by
  simp only [ramo_prazo]; split_ifs <;> simp_all

end Improved

namespace App

@[simp] theorem ramo_expirado_status (mon : Monitoramento) (e : Bool) (u0 : Updates) :
    (ramo_expirado mon e u0).status = some .expirado := by
  simp only [ramo_expirado]; split_ifs <;> simp

@[simp] theorem ramo_expirado_falhas (mon : Monitoramento) (e : Bool) (u0 : Updates) :
    (ramo_expirado mon e u0).falhas_consecutivas = u0.falhas_consecutivas := by
  simp only [ramo_expirado]; split_ifs <;> simp

@[simp] theorem ramo_expirado_flag_venda (mon : Monitoramento) (e : Bool) (u0 : Updates) :
    (ramo_expirado mon e u0).notif_venda_enviada = u0.notif_venda_enviada := by
  simp only [ramo_expirado]; split_ifs <;> simp

@[simp] theorem ramo_expirado_marcador_venda (mon : Monitoramento) (e : Bool) (u0 : Updates) :
    (ramo_expirado mon e u0).notificado_venda = u0.notificado_venda := by
  simp only [ramo_expirado]; split_ifs <;> simp

@[simp] theorem ramo_expirado_flag_prazo (mon : Monitoramento) (e : Bool) (u0 : Updates) :
    (ramo_expirado mon e u0).notif_prazo_enviada = u0.notif_prazo_enviada := by
  simp only [ramo_expirado]; split_ifs <;> simp

@[simp] theorem ramo_expirado_marcador_prazo (mon : Monitoramento) (e : Bool) (u0 : Updates) :
    (ramo_expirado mon e u0).notificado_prazo = u0.notificado_prazo := by
  simp only [ramo_expirado]; split_ifs <;> simp

@[simp] theorem ramo_expirado_flag_semanal (mon : Monitoramento) (e : Bool) (u0 : Updates) :
    (ramo_expirado mon e u0).notif_semanal_enviada = u0.notif_semanal_enviada := by
  simp only [ramo_expirado]; split_ifs <;> simp

@[simp] theorem ramo_expirado_flag (mon : Monitoramento) (e : Bool) (u0 : Updates) :
    (ramo_expirado mon e u0).notif_expirado_enviada =
      if mon.notificado_expirado = false then true
      else u0.notif_expirado_enviada := by
  simp only [ramo_expirado]; split_ifs <;> simp_all

@[simp] theorem ramo_expirado_marcador (mon : Monitoramento) (e : Bool) (u0 : Updates) :
    (ramo_expirado mon e u0).notificado_expirado =
      if mon.notificado_expirado = false ∧
          enviar_notificacao mon.tipo_notificacao e = true
      then some true else u0.notificado_expirado := by
  simp only [ramo_expirado]; split_ifs <;> simp_all

@[simp] theorem app_offline_falhas (mon : Monitoramento) (e : Bool) (u0 : Updates) :
    (ramo_offline mon e u0).falhas_consecutivas
      = some (mon.falhas_consecutivas + 1) := by
  simp only [ramo_offline]; split_ifs <;> simp

@[simp] theorem app_offline_status (mon : Monitoramento) (e : Bool) (u0 : Updates) :
    (ramo_offline mon e u0).status = u0.status := by
  simp only [ramo_offline]; split_ifs <;> simp

@[simp] theorem app_offline_exp_flag (mon : Monitoramento) (e : Bool) (u0 : Updates) :
    (ramo_offline mon e u0).notif_expirado_enviada = u0.notif_expirado_enviada := by
  simp only [ramo_offline]; split_ifs <;> simp

@[simp] theorem app_offline_exp_marcador (mon : Monitoramento) (e : Bool) (u0 : Updates) :
    (ramo_offline mon e u0).notificado_expirado = u0.notificado_expirado := by
  simp only [ramo_offline]; split_ifs <;> simp

@[simp] theorem app_offline_prazo_flag (mon : Monitoramento) (e : Bool) (u0 : Updates) :
    (ramo_offline mon e u0).notif_prazo_enviada = u0.notif_prazo_enviada := by
  simp only [ramo_offline]; split_ifs <;> simp

@[simp] theorem app_offline_prazo_marcador (mon : Monitoramento) (e : Bool) (u0 : Updates) :
    (ramo_offline mon e u0).notificado_prazo = u0.notificado_prazo := by
  simp only [ramo_offline]; split_ifs <;> simp

@[simp] theorem app_offline_vendido (mon : Monitoramento) (e : Bool) (u0 : Updates) :
    (ramo_offline mon e u0).carro_vendido =
      if mon.falhas_consecutivas + 1 ≥ 2 ∧ mon.carro_vendido = false
      then some true else u0.carro_vendido := by
  simp only [ramo_offline]; split_ifs <;> simp_all

@[simp] theorem app_offline_flag (mon : Monitoramento) (e : Bool) (u0 : Updates) :
    (ramo_offline mon e u0).notif_venda_enviada =
      if (mon.falhas_consecutivas + 1 ≥ 2 ∧ mon.carro_vendido = false) ∧
          mon.notificado_venda = false
      then true else u0.notif_venda_enviada := by
  simp only [ramo_offline]; split_ifs <;> simp_all

@[simp] theorem app_offline_marcador (mon : Monitoramento) (e : Bool) (u0 : Updates) :
    (ramo_offline mon e u0).notificado_venda =
      if (mon.falhas_consecutivas + 1 ≥ 2 ∧ mon.carro_vendido = false) ∧
          mon.notificado_venda = false ∧
          enviar_notificacao mon.tipo_notificacao e = true
      then some true else u0.notificado_venda := by
  simp only [ramo_offline]; split_ifs <;> simp_all

@[simp] theorem app_online_status (mon : Monitoramento) (u0 : Updates) :
    (ramo_online mon u0).status = u0.status := by
  simp only [ramo_online]; split_ifs <;> first | rfl | simp_all

@[simp] theorem app_online_vendido (mon : Monitoramento) (u0 : Updates) :
    (ramo_online mon u0).carro_vendido = u0.carro_vendido := by
  simp only [ramo_online]; split_ifs <;> first | rfl | simp_all

@[simp] theorem app_online_flag (mon : Monitoramento) (u0 : Updates) :
    (ramo_online mon u0).notif_venda_enviada = u0.notif_venda_enviada := by
  simp only [ramo_online]; split_ifs <;> first | rfl | simp_all

@[simp] theorem app_online_marcador (mon : Monitoramento) (u0 : Updates) :
    (ramo_online mon u0).notificado_venda = u0.notificado_venda := by
  simp only [ramo_online]; split_ifs <;> first | rfl | simp_all

@[simp] theorem app_online_prazo_flag (mon : Monitoramento) (u0 : Updates) :
    (ramo_online mon u0).notif_prazo_enviada = u0.notif_prazo_enviada := by
  simp only [ramo_online]; split_ifs <;> first | rfl | simp_all

@[simp] theorem app_online_prazo_marcador (mon : Monitoramento) (u0 : Updates) :
    (ramo_online mon u0).notificado_prazo = u0.notificado_prazo := by
  simp only [ramo_online]; split_ifs <;> first | rfl | simp_all

@[simp] theorem app_online_exp_flag (mon : Monitoramento) (u0 : Updates) :
    (ramo_online mon u0).notif_expirado_enviada = u0.notif_expirado_enviada := by
  simp only [ramo_online]; split_ifs <;> first | rfl | simp_all

@[simp] theorem app_online_exp_marcador (mon : Monitoramento) (u0 : Updates) :
    (ramo_online mon u0).notificado_expirado = u0.notificado_expirado := by
  simp only [ramo_online]; split_ifs <;> first | rfl | simp_all

@[simp] theorem app_prazo_status (mon : Monitoramento) (d : Int) (e : Bool) (u1 : Updates) :
    (ramo_prazo mon d e u1).status = u1.status := by
  simp only [ramo_prazo]; split_ifs <;> first | rfl | simp_all

@[simp] theorem app_prazo_vendido (mon : Monitoramento) (d : Int) (e : Bool) (u1 : Updates) :
    (ramo_prazo mon d e u1).carro_vendido = u1.carro_vendido := by
  simp only [ramo_prazo]; split_ifs <;> first | rfl | simp_all

@[simp] theorem app_prazo_flag_venda (mon : Monitoramento) (d : Int) (e : Bool) (u1 : Updates) :
    (ramo_prazo mon d e u1).notif_venda_enviada = u1.notif_venda_enviada := by
  simp only [ramo_prazo]; split_ifs <;> first | rfl | simp_all

@[simp] theorem app_prazo_marcador_venda (mon : Monitoramento) (d : Int) (e : Bool) (u1 : Updates) :
    (ramo_prazo mon d e u1).notificado_venda = u1.notificado_venda := by
  simp only [ramo_prazo]; split_ifs <;> first | rfl | simp_all

@[simp] theorem app_prazo_exp_flag (mon : Monitoramento) (d : Int) (e : Bool) (u1 : Updates) :
    (ramo_prazo mon d e u1).notif_expirado_enviada = u1.notif_expirado_enviada := by
  simp only [ramo_prazo]; split_ifs <;> first | rfl | simp_all

@[simp] theorem app_prazo_exp_marcador (mon : Monitoramento) (d : Int) (e : Bool) (u1 : Updates) :
    (ramo_prazo mon d e u1).notificado_expirado = u1.notificado_expirado := by
  simp only [ramo_prazo]; split_ifs <;> first | rfl | simp_all

@[simp] theorem app_prazo_flag (mon : Monitoramento) (d : Int) (e : Bool) (u1 : Updates) :
    (ramo_prazo mon d e u1).notif_prazo_enviada =
      if d ≤ 5 ∧ d > 0 ∧ mon.notificado_prazo = false then true
      else u1.notif_prazo_enviada := by
  simp only [ramo_prazo]; split_ifs <;> simp_all

@[simp] theorem app_prazo_marcador (mon : Monitoramento) (d : Int) (e : Bool) (u1 : Updates) :
    (ramo_prazo mon d e u1).notificado_prazo =
      if (d ≤ 5 ∧ d > 0 ∧ mon.notificado_prazo = false) ∧
          enviar_notificacao mon.tipo_notificacao e = true
      then some true else u1.notificado_prazo := by
  simp only [ramo_prazo]; split_ifs <;> simp_all

@[simp] theorem app_semanal_status (mon : Monitoramento) (now d : Int) (e : Bool) (u2 : Updates) :
    (ramo_semanal mon now d e u2).status = u2.status := by
  simp only [ramo_semanal]; split_ifs <;> first | rfl | simp_all

@[simp] theorem app_semanal_vendido (mon : Monitoramento) (now d : Int) (e : Bool) (u2 : Updates) :
    (ramo_semanal mon now d e u2).carro_vendido = u2.carro_vendido := by
  simp only [ramo_semanal]; split_ifs <;> first | rfl | simp_all

@[simp] theorem app_semanal_flag_venda (mon : Monitoramento) (now d : Int) (e : Bool) (u2 : Updates) :
    (ramo_semanal mon now d e u2).notif_venda_enviada = u2.notif_venda_enviada := by
  simp only [ramo_semanal]; split_ifs <;> first | rfl | simp_all

@[simp] theorem app_semanal_marcador_venda (mon : Monitoramento) (now d : Int) (e : Bool) (u2 : Updates) :
    (ramo_semanal mon now d e u2).notificado_venda = u2.notificado_venda := by
  simp only [ramo_semanal]; split_ifs <;> first | rfl | simp_all

@[simp] theorem app_semanal_flag_prazo (mon : Monitoramento) (now d : Int) (e : Bool) (u2 : Updates) :
    (ramo_semanal mon now d e u2).notif_prazo_enviada = u2.notif_prazo_enviada := by
  simp only [ramo_semanal]; split_ifs <;> first | rfl | simp_all

@[simp] theorem app_semanal_marcador_prazo (mon : Monitoramento) (now d : Int) (e : Bool) (u2 : Updates) :
    (ramo_semanal mon now d e u2).notificado_prazo = u2.notificado_prazo := by
  simp only [ramo_semanal]; split_ifs <;> first | rfl | simp_all

@[simp] theorem app_semanal_exp_flag (mon : Monitoramento) (now d : Int) (e : Bool) (u2 : Updates) :
    (ramo_semanal mon now d e u2).notif_expirado_enviada = u2.notif_expirado_enviada := by
  simp only [ramo_semanal]; split_ifs <;> first | rfl | simp_all

@[simp] theorem app_semanal_exp_marcador (mon : Monitoramento) (now d : Int) (e : Bool) (u2 : Updates) :
    (ramo_semanal mon now d e u2).notificado_expirado = u2.notificado_expirado := by
  simp only [ramo_semanal]; split_ifs <;> first | rfl | simp_all

end App

/-! Concrete fixtures used by witnesses and counterexamples. -/

/-- A fresh active row: sale date at datetime 0, Telegram channel, no
flags set, no failures. -/
def monBase : Monitoramento :=
  ⟨1, 0, .telegram, .ativo, false, false, false, false, 0, none, 0, none⟩

/-- The same row on the WhatsApp channel with two recorded failures. -/
def monZap : Monitoramento :=
  { monBase with tipo_notificacao := .whatsapp, falhas_consecutivas := 2 }

/-- Truncating a datetime to its calendar date, restated with
Euclidean division so that `omega` can reason about it. -/
theorem dataDe_eq_ediv (t : Int) : dataDe t = t / 1440 :=
  Int.fdiv_eq_ediv t (by decide)

/-- Day component of a difference, restated with Euclidean division. -/
theorem diasDelta_eq_ediv (d : Int) : diasDelta d = d / 1440 :=
  Int.fdiv_eq_ediv d (by decide)

/-- Truncating an already-truncated datetime changes nothing. -/
theorem dataDe_mul (k : Int) : dataDe (k * minutosPorDia) = k :=
  Int.mul_fdiv_cancel k (by decide)

/-! Helper lemmas about the sale path of app_improved.py's state
machine, shared by several claim theorems. -/

/-- With quarantine active, no sale dispatch happens: the attempt flag
stays clear and neither `carro_vendido` nor `notificado_venda` enters
the updates dict. -/
theorem quarentena_sem_venda (mon : Monitoramento) (now : Int)
    (probe : ProbeResult) (ev ep : Bool) :
    (Improved.processar_monitoramento mon now probe true ev ep).notif_venda_enviada = false ∧
    (Improved.processar_monitoramento mon now probe true ev ep).carro_vendido = none ∧
    (Improved.processar_monitoramento mon now probe true ev ep).notificado_venda = none := by
  simp only [Improved.processar_monitoramento]
  split_ifs <;> simp_all [Updates.vazio]

/-- A failing probe on a non-expired item always increments the
consecutive-failure counter, quarantined or not. -/
theorem falhas_incrementa (mon : Monitoramento) (now : Int)
    (probe : ProbeResult) (q ev ep : Bool)
    (hoff : (verificar_link_detalhado probe).1 = false)
    (hdias : ¬ Improved.dias_restantes_calc mon.data_venda now < 0) :
    (Improved.processar_monitoramento mon now probe q ev ep).falhas_consecutivas
      = some (mon.falhas_consecutivas + 1) := by
  simp only [Improved.processar_monitoramento]
  split_ifs <;> simp_all

/-- The sale marker enters the updates dict only when the delivery call
reported success. -/
theorem marcador_venda_entrega (mon : Monitoramento) (now : Int)
    (probe : ProbeResult) (q ev ep : Bool) :
    (Improved.processar_monitoramento mon now probe q ev ep).notificado_venda = some true →
    Improved.enviar_notificacao mon.tipo_notificacao ev = true := by
  simp only [Improved.processar_monitoramento]
  split_ifs <;> simp_all [Updates.vazio] <;> split_ifs <;> simp_all

/-- Without quarantine, a failing probe past the threshold on an
unsold, never-notified item attempts the sale notification. -/
theorem tentativa_venda (mon : Monitoramento) (now : Int)
    (probe : ProbeResult) (ev ep : Bool)
    (hoff : (verificar_link_detalhado probe).1 = false)
    (hdias : ¬ Improved.dias_restantes_calc mon.data_venda now < 0)
    (hfal : mon.falhas_consecutivas + 1 ≥
      Improved.falhas_necessarias (verificar_link_detalhado probe).2)
    (hvend : mon.carro_vendido = false)
    (hnot : mon.notificado_venda = false) :
    (Improved.processar_monitoramento mon now probe false ev ep).notif_venda_enviada = true := by
  simp only [Improved.processar_monitoramento]
  split_ifs <;> simp_all

/-- A sale blocked by quarantine is deferred, not dropped: the
quarantined cycle dispatches nothing, and after its updates are
persisted a later unquarantined failing cycle attempts the sale
notification. -/
theorem venda_adiada (mon : Monitoramento) (now1 now2 : Int)
    (probe : ProbeResult) (ev ep : Bool)
    (hoff : (verificar_link_detalhado probe).1 = false)
    (h1 : ¬ Improved.dias_restantes_calc mon.data_venda now1 < 0)
    (h2 : ¬ Improved.dias_restantes_calc mon.data_venda now2 < 0)
    (hfal : mon.falhas_consecutivas + 1 ≥
      Improved.falhas_necessarias (verificar_link_detalhado probe).2)
    (hvend : mon.carro_vendido = false)
    (hnot : mon.notificado_venda = false) :
    (Improved.processar_monitoramento mon now1 probe true ev ep).notif_venda_enviada = false ∧
    (Improved.processar_monitoramento
        (aplicar mon (Improved.processar_monitoramento mon now1 probe true ev ep))
        now2 probe false ev ep).notif_venda_enviada = true := by
  have hq := quarentena_sem_venda mon now1 probe ev ep
  refine ⟨hq.1, ?_⟩
  have hfails := falhas_incrementa mon now1 probe true ev ep hoff h1
  have e2 : (aplicar mon (Improved.processar_monitoramento mon now1 probe true ev ep)).falhas_consecutivas
      = mon.falhas_consecutivas + 1 := by simp [aplicar, hfails]
  have e3 : (aplicar mon (Improved.processar_monitoramento mon now1 probe true ev ep)).carro_vendido = false := by
    simp [aplicar, hq.2.1, hvend]
  have e4 : (aplicar mon (Improved.processar_monitoramento mon now1 probe true ev ep)).notificado_venda = false := by
    simp [aplicar, hq.2.2, hnot]
  apply tentativa_venda _ now2 probe ev ep hoff
  · exact h2
  · rw [e2]
    exact hfal.trans (Nat.le_succ _)
  · exact e3
  · exact e4

/-! Helper lemmas about the idempotency markers, shared by claim
theorems. -/

set_option maxHeartbeats 1000000 in
/-- The sale marker of app_improved.py is set exactly when the sale
dispatch happened and the delivery call confirmed it. -/
theorem venda_iff_entrega (mon : Monitoramento) (now : Int) (probe : ProbeResult) (q ev ep : Bool) :
    ((Improved.processar_monitoramento mon now probe q ev ep).notificado_venda = some true ↔
      ((Improved.processar_monitoramento mon now probe q ev ep).notif_venda_enviada = true ∧
        Improved.enviar_notificacao mon.tipo_notificacao ev = true)) := by
  simp only [Improved.processar_monitoramento]
  split_ifs <;> simp_all [Updates.vazio] <;> first
    | tauto
    | (split_ifs <;> simp_all)

set_option maxHeartbeats 1000000 in
/-- Once the sale marker is set on a row, app_improved.py neither
attempts the sale notification again nor rewrites the marker. -/
theorem venda_ja_notificada (mon : Monitoramento) (now : Int) (probe : ProbeResult) (q ev ep : Bool)
    (h : mon.notificado_venda = true) :
    (Improved.processar_monitoramento mon now probe q ev ep).notif_venda_enviada = false ∧
    (Improved.processar_monitoramento mon now probe q ev ep).notificado_venda = none := by
  simp only [Improved.processar_monitoramento]
  split_ifs <;> simp_all [Updates.vazio]

set_option maxHeartbeats 1000000 in
/-- The deadline marker of app_improved.py: set exactly on a confirmed
dispatch, and never touched again once set. -/
theorem prazo_iff_entrega (mon : Monitoramento) (now : Int) (probe : ProbeResult) (q ev ep : Bool) :
    ((Improved.processar_monitoramento mon now probe q ev ep).notificado_prazo = some true ↔
      ((Improved.processar_monitoramento mon now probe q ev ep).notif_prazo_enviada = true ∧
        Improved.enviar_notificacao mon.tipo_notificacao ep = true)) ∧
    (mon.notificado_prazo = true →
      (Improved.processar_monitoramento mon now probe q ev ep).notif_prazo_enviada = false ∧
      (Improved.processar_monitoramento mon now probe q ev ep).notificado_prazo = none) := by
  constructor
  · simp only [Improved.processar_monitoramento]
    split_ifs <;> simp_all [Updates.vazio] <;> first
      | tauto
      | (split_ifs <;> simp_all)
  · intro h
    simp only [Improved.processar_monitoramento]
    split_ifs <;> simp_all [Updates.vazio]

set_option maxHeartbeats 1000000 in
/-- The expiry marker of app.py: set exactly on a confirmed dispatch,
and never touched again once set. -/
theorem app_expirado_iff_entrega (mon : Monitoramento) (now : Int) (probe : ProbeResult) (e1 e2 e3 e4 : Bool) :
    ((App.processar_monitoramento mon now probe e1 e2 e3 e4).notificado_expirado = some true ↔
      ((App.processar_monitoramento mon now probe e1 e2 e3 e4).notif_expirado_enviada = true ∧
        App.enviar_notificacao mon.tipo_notificacao e1 = true)) ∧
    (mon.notificado_expirado = true →
      (App.processar_monitoramento mon now probe e1 e2 e3 e4).notif_expirado_enviada = false ∧
      (App.processar_monitoramento mon now probe e1 e2 e3 e4).notificado_expirado = none) := by
  constructor
  · simp only [App.processar_monitoramento]
    split_ifs <;> simp_all [Updates.vazio] <;> first
      | tauto
      | (split_ifs <;> simp_all)
  · intro h
    simp only [App.processar_monitoramento]
    split_ifs <;> simp_all [Updates.vazio]

set_option maxHeartbeats 1000000 in
/-- The sale and deadline markers of app.py: set exactly on a confirmed
dispatch, and never touched again once set. -/
theorem app_venda_prazo_iff_entrega (mon : Monitoramento) (now : Int) (probe : ProbeResult) (e1 e2 e3 e4 : Bool) :
    ((App.processar_monitoramento mon now probe e1 e2 e3 e4).notificado_venda = some true ↔
      ((App.processar_monitoramento mon now probe e1 e2 e3 e4).notif_venda_enviada = true ∧
        App.enviar_notificacao mon.tipo_notificacao e2 = true)) ∧
    (mon.notificado_venda = true →
      (App.processar_monitoramento mon now probe e1 e2 e3 e4).notif_venda_enviada = false ∧
      (App.processar_monitoramento mon now probe e1 e2 e3 e4).notificado_venda = none) ∧
    ((App.processar_monitoramento mon now probe e1 e2 e3 e4).notificado_prazo = some true ↔
      ((App.processar_monitoramento mon now probe e1 e2 e3 e4).notif_prazo_enviada = true ∧
        App.enviar_notificacao mon.tipo_notificacao e3 = true)) ∧
    (mon.notificado_prazo = true →
      (App.processar_monitoramento mon now probe e1 e2 e3 e4).notif_prazo_enviada = false ∧
      (App.processar_monitoramento mon now probe e1 e2 e3 e4).notificado_prazo = none) := by
  refine ⟨?_, ?_, ?_, ?_⟩
  · simp only [App.processar_monitoramento]
    split_ifs <;> simp_all [Updates.vazio] <;> first
      | tauto
      | (split_ifs <;> simp_all)
  · intro h
    simp only [App.processar_monitoramento]
    split_ifs <;> simp_all [Updates.vazio]
  · simp only [App.processar_monitoramento]
    split_ifs <;> simp_all [Updates.vazio] <;> first
      | tauto
      | (split_ifs <;> simp_all)
  · intro h
    simp only [App.processar_monitoramento]
    split_ifs <;> simp_all [Updates.vazio]

set_option maxHeartbeats 1000000 in
/-- Neither backend ever writes `false` into an idempotency marker. -/
theorem marcadores_nunca_false (mon : Monitoramento) (now : Int) (probe : ProbeResult) (q ev ep e1 e2 e3 e4 : Bool) :
    ((Improved.processar_monitoramento mon now probe q ev ep).notificado_venda ≠ some false ∧
     (Improved.processar_monitoramento mon now probe q ev ep).notificado_prazo ≠ some false ∧
     (Improved.processar_monitoramento mon now probe q ev ep).notificado_expirado ≠ some false) ∧
    ((App.processar_monitoramento mon now probe e1 e2 e3 e4).notificado_venda ≠ some false ∧
     (App.processar_monitoramento mon now probe e1 e2 e3 e4).notificado_prazo ≠ some false ∧
     (App.processar_monitoramento mon now probe e1 e2 e3 e4).notificado_expirado ≠ some false) := by
  constructor
  · simp only [Improved.processar_monitoramento]
    split_ifs <;> simp_all [Updates.vazio] <;> first
      | tauto
      | (split_ifs <;> simp_all)
  · simp only [App.processar_monitoramento]
    split_ifs <;> simp_all [Updates.vazio] <;> first
      | tauto
      | (split_ifs <;> simp_all)

/-- Persisting an updates dict that never writes `false` into a marker
keeps every already-set marker set: each marker goes false to true at
most once over the row's lifetime. -/
theorem aplicar_marcadores_mono (mon : Monitoramento) (u : Updates) :
    (u.notificado_venda ≠ some false → mon.notificado_venda = true →
      (aplicar mon u).notificado_venda = true) ∧
    (u.notificado_prazo ≠ some false → mon.notificado_prazo = true →
      (aplicar mon u).notificado_prazo = true) ∧
    (u.notificado_expirado ≠ some false → mon.notificado_expirado = true →
      (aplicar mon u).notificado_expirado = true) := by
  refine ⟨?_, ?_, ?_⟩ <;> intro h1 h2
  · cases h : u.notificado_venda with
    | none => simp [aplicar, h, h2]
    | some b => cases b <;> simp_all [aplicar]
  · cases h : u.notificado_prazo with
    | none => simp [aplicar, h, h2]
    | some b => cases b <;> simp_all [aplicar]
  · cases h : u.notificado_expirado with
    | none => simp [aplicar, h, h2]
    | some b => cases b <;> simp_all [aplicar]

/-- Following the spec's words for claim C3: the failure count over a
batch is the number of items whose stored `consecutiveFailures` is
positive after the cycle's updates are applied. -/
def total_falhas_spec (ul : List (Monitoramento × Updates)) : Nat :=
  (ul.filter fun mu => decide ((aplicar mu.1 mu.2).falhas_consecutivas > 0)).length

set_option maxHeartbeats 1000000 in
/-- Per item, the counted condition `updates.get('falhas_consecutivas', 0) > 0`
coincides with "the item did not expire this cycle and its stored
counter is positive after the update is applied". -/
theorem conta_falhas_eq (mon : Monitoramento) (now : Int) (probe : ProbeResult) (q ev ep : Bool) :
    (decide ((Improved.processar_monitoramento mon now probe q ev ep).falhas_consecutivas.getD 0 > 0))
    = (((Improved.processar_monitoramento mon now probe q ev ep).status == none) &&
       decide ((aplicar mon (Improved.processar_monitoramento mon now probe q ev ep)).falhas_consecutivas > 0)) := by
  simp only [Improved.processar_monitoramento]
  split_ifs <;> simp_all [aplicar, Updates.vazio] <;> split_ifs <;> simp_all

/-- Shape of a non-aborted cycle with both preflights green: updates
come from mapping the state machine over the batch with the
PASSO-1-adjusted quarantine flag, and the systemic-threshold comparison
decides between recording a health row plus quarantining and doing
neither. -/
theorem ciclo_caracterizacao (q : Quarentena) (now : Int) (batch : List ItemCiclo)
    (hb : batch ≠ []) :
    (Improved.verificar_monitoramentos q now true true batch).abortado = false ∧
    (Improved.verificar_monitoramentos q now true true batch).updates_list
      = batch.map (fun ic => (ic.mon,
          Improved.processar_monitoramento ic.mon now ic.probe (Improved.passo1 q now).ativa
            ic.entrega_venda ic.entrega_prazo)) ∧
    (porcentagem_de
        (total_falhas_contadas (Improved.verificar_monitoramentos q now true true batch).updates_list)
        batch.length ≥ (LIMITE_FALHAS_SISTEMICAS : ℚ) →
      (Improved.verificar_monitoramentos q now true true batch).health
        = some ⟨batch.length,
            total_falhas_contadas (Improved.verificar_monitoramentos q now true true batch).updates_list,
            porcentagem_de
              (total_falhas_contadas (Improved.verificar_monitoramentos q now true true batch).updates_list)
              batch.length, false⟩ ∧
      (Improved.verificar_monitoramentos q now true true batch).quarentena
        = ⟨true, some (now + QUARENTENA_MINUTOS)⟩) ∧
    (¬ porcentagem_de
        (total_falhas_contadas (Improved.verificar_monitoramentos q now true true batch).updates_list)
        batch.length ≥ (LIMITE_FALHAS_SISTEMICAS : ℚ) →
      (Improved.verificar_monitoramentos q now true true batch).health = none ∧
      (Improved.verificar_monitoramentos q now true true batch).quarentena
        = Improved.passo1 q now) := by
  have hne : batch.isEmpty = false := by
    simpa [List.isEmpty_iff] using hb
  simp only [Improved.verificar_monitoramentos, hne, Bool.not_true, Bool.false_eq_true,
    if_false, not_true_eq_false, Bool.not_eq_true]
  split_ifs with hc <;>
    refine ⟨rfl, rfl, ?_, ?_⟩ <;> intro h <;> first
      | exact ⟨rfl, rfl⟩
      | (exfalso; exact h hc)
      | (exfalso; exact hc h)

/-- One item that expires this cycle while holding a positive stored
failure counter. -/
def itemQueExpira : ItemCiclo :=
  ⟨{ monBase with falhas_consecutivas := 1 }, .response 200, true, true⟩

/-- A failing batch member: fresh item whose probe returns 404. -/
def itemFalha (i : Nat) : ItemCiclo :=
  ⟨{ monBase with id := i }, .response 404, true, true⟩

/-- A succeeding batch member: fresh item whose probe returns 200. -/
def itemSucesso (i : Nat) : ItemCiclo :=
  ⟨{ monBase with id := i }, .response 200, true, true⟩

/-- A batch of ten items of which eight fail their probe. -/
def loteDez : List ItemCiclo :=
  [itemFalha 0, itemFalha 1, itemFalha 2, itemFalha 3, itemFalha 4,
   itemFalha 5, itemFalha 6, itemFalha 7, itemSucesso 8, itemSucesso 9]

/-! Claim theorems. -/


set_option maxHeartbeats 1000000 in
/-- Claim C1: an item is marked sold only when its incremented failure
counter has reached `falhas_necessarias` of the classified error, which
is the base threshold FALHAS_PARA_VENDA = 3, and exactly one higher for
the ambiguous kinds {timeout, dns_error, connection_error, http_500};
concretely, a third http_404 failure sells, a third timeout does not,
and a fourth timeout does. -/
theorem c1_limite_falhas :
    (∀ mon now probe q ev ep,
      (Improved.processar_monitoramento mon now probe q ev ep).carro_vendido = some true →
      (Improved.processar_monitoramento mon now probe q ev ep).falhas_consecutivas
          = some (mon.falhas_consecutivas + 1) ∧
      (Improved.processar_monitoramento mon now probe q ev ep).ultimo_erro
          = some (some (verificar_link_detalhado probe).2) ∧
      mon.falhas_consecutivas + 1 ≥ Improved.falhas_necessarias (verificar_link_detalhado probe).2) ∧
    (FALHAS_PARA_VENDA = 3 ∧
     Improved.falhas_necessarias .http_404 = 3 ∧
     Improved.falhas_necessarias .http_other = 3 ∧
     Improved.falhas_necessarias .unknown = 3 ∧
     Improved.falhas_necessarias .timeout = 4 ∧
     Improved.falhas_necessarias .dns_error = 4 ∧
     Improved.falhas_necessarias .connection_error = 4 ∧
     Improved.falhas_necessarias .http_500 = 4) ∧
    ((Improved.processar_monitoramento { monBase with falhas_consecutivas := 2 }
        1440 (.response 404) false true true).carro_vendido = some true) ∧
    ((Improved.processar_monitoramento { monBase with falhas_consecutivas := 2 }
        1440 .timeoutExc false true true).carro_vendido = none) ∧
    ((Improved.processar_monitoramento { monBase with falhas_consecutivas := 3 }
        1440 .timeoutExc false true true).carro_vendido = some true) := by
  refine ⟨?_, by decide, by decide, by decide, by decide⟩
  intro mon now probe q ev ep
  simp only [Improved.processar_monitoramento]
  split_ifs <;> simp_all [Updates.vazio] <;> split_ifs <;> simp_all

/-- Claim C1 witness: the sold-implies-threshold clause instantiated at
the third http_404 failure. -/
theorem c1_limite_falhas_witness :
    (Improved.processar_monitoramento { monBase with falhas_consecutivas := 2 }
        1440 (.response 404) false true true).falhas_consecutivas = some 3 ∧
    (Improved.processar_monitoramento { monBase with falhas_consecutivas := 2 }
        1440 (.response 404) false true true).ultimo_erro = some (some .http_404) ∧
    3 ≥ Improved.falhas_necessarias (verificar_link_detalhado (.response 404)).2 :=
  c1_limite_falhas.1 { monBase with falhas_consecutivas := 2 }
    1440 (.response 404) false true true (by decide)

/-- Claim C5 counterexample: in app_improved.py an active item whose
deadline has been reached (daysRemaining = 0 on the calendar
computation and on the datetime one, at midnight of day 45) is neither
transitioned to expired nor sent any expiry notification — the improved
backend has no expiry notification at all and expires only at a
strictly negative day count. -/
theorem c5_expira_cex :
    (App.calcular_dias_restantes monBase.data_venda (45 * minutosPorDia)).1 = 0 ∧
    Improved.dias_restantes_calc monBase.data_venda (45 * minutosPorDia) = 0 ∧
    (Improved.processar_monitoramento monBase (45 * minutosPorDia)
        (.response 200) false true true).status = none ∧
    (Improved.processar_monitoramento monBase (45 * minutosPorDia)
        (.response 200) false true true).notif_expirado_enviada = false := by
  refine ⟨by decide, by decide, by decide, by decide⟩

set_option maxHeartbeats 1000000 in
/-- Claim C5 (amended): in app.py an active item with daysRemaining = 0
transitions to expired, the expiry notification is attempted exactly
once (marker set on confirmed delivery only, no sale/deadline/weekly
attempt in that cycle), and once expired the item is excluded from
every later batch, so no further notification of any kind occurs; in
app_improved.py the item expires only when the datetime-based day count
is strictly negative and no expiry notification is ever attempted. -/
theorem c5_expiracao :
    (∀ mon now probe e1 e2 e3 e4,
      (App.calcular_dias_restantes mon.data_venda now).1 = 0 →
      (App.processar_monitoramento mon now probe e1 e2 e3 e4).status = some .expirado ∧
      (mon.notificado_expirado = false →
        (App.processar_monitoramento mon now probe e1 e2 e3 e4).notif_expirado_enviada = true ∧
        ((App.processar_monitoramento mon now probe e1 e2 e3 e4).notificado_expirado = some true ↔
          App.enviar_notificacao mon.tipo_notificacao e1 = true)) ∧
      (mon.notificado_expirado = true →
        (App.processar_monitoramento mon now probe e1 e2 e3 e4).notif_expirado_enviada = false ∧
        (App.processar_monitoramento mon now probe e1 e2 e3 e4).notificado_expirado = none) ∧
      (App.processar_monitoramento mon now probe e1 e2 e3 e4).notif_venda_enviada = false ∧
      (App.processar_monitoramento mon now probe e1 e2 e3 e4).notif_prazo_enviada = false ∧
      (App.processar_monitoramento mon now probe e1 e2 e3 e4).notif_semanal_enviada = false) ∧
    (∀ db mon, mon ∈ selecionar_ativos db → mon.status = .ativo) ∧
    (∀ mon now probe q ev ep,
      ((Improved.processar_monitoramento mon now probe q ev ep).status = some .expirado ↔
        Improved.dias_restantes_calc mon.data_venda now < 0) ∧
      (Improved.processar_monitoramento mon now probe q ev ep).notif_expirado_enviada = false) := by
  refine ⟨?_, ?_, ?_⟩
  · intro mon now probe e1 e2 e3 e4 hd
    simp only [App.processar_monitoramento, hd]
    norm_num
    simp_all [Updates.vazio]
  · intro db mon h
    have h1 := List.mem_of_mem_take h
    rw [List.mem_mergeSort] at h1
    simp [List.mem_filter] at h1
    exact h1.2
  · intro mon now probe q ev ep
    simp only [Improved.processar_monitoramento]
    split_ifs <;> simp_all [Updates.vazio]

/-- Claim C5 (amended) witness: app.py at midnight of day 45 expires
the base item and attempts its expiry notification. -/
theorem c5_expiracao_witness :
    (App.processar_monitoramento monBase (45 * minutosPorDia)
        (.response 200) true true true true).status = some .expirado ∧
    (App.processar_monitoramento monBase (45 * minutosPorDia)
        (.response 200) true true true true).notif_expirado_enviada = true := by
  have h := c5_expiracao.1 monBase (45 * minutosPorDia) (.response 200)
    true true true true (by decide)
  exact ⟨h.1, (h.2.1 rfl).1⟩

/-- Claim C6: when the self-connectivity preflight fails, the batch
cycle of app_improved.py exits before touching any item: it collects no
updates, inserts no health row, reports the abort, and leaves the
quarantine flags exactly as the lazy-expiry step (PASSO 1) left them. -/
theorem c6_preflight_abort (q : Quarentena) (now : Int)
    (kavak_online : Bool) (batch : List ItemCiclo) :
    (Improved.verificar_monitoramentos q now false kavak_online batch).updates_list = [] ∧
    (Improved.verificar_monitoramentos q now false kavak_online batch).health = none ∧
    (Improved.verificar_monitoramentos q now false kavak_online batch).abortado = true ∧
    (Improved.verificar_monitoramentos q now false kavak_online batch).quarentena
      = Improved.passo1 q now := by
  simp [Improved.verificar_monitoramentos]

/-- Claim C7: if quarantine is active with a deadline `t` and the cycle
runs at `now ≥ t`, PASSO 1 clears the flags before anything else, so
the whole cycle behaves exactly as if quarantine had never been
active. -/
theorem c7_quarentena_expira (q : Quarentena) (now t : Int)
    (tem_internet kavak_online : Bool) (batch : List ItemCiclo)
    (hq : q.ativa = true) (ht : q.ate = some t) (hnow : now ≥ t) :
    Improved.passo1 q now = ⟨false, none⟩ ∧
    Improved.verificar_monitoramentos q now tem_internet kavak_online batch
      = Improved.verificar_monitoramentos ⟨false, none⟩ now tem_internet kavak_online batch := by
  have h1 : Improved.passo1 q now = ⟨false, none⟩ := by
    simp only [Improved.passo1, hq, ht, if_true]
    have : ¬ now < t := not_lt.mpr hnow
    simp [this]
  have h2 : Improved.passo1 (⟨false, none⟩ : Quarentena) now = ⟨false, none⟩ := by
    simp [Improved.passo1]
  refine ⟨h1, ?_⟩
  simp only [Improved.verificar_monitoramentos, h1, h2]

/-- Claim C7 witness: active quarantine until minute 100, evaluated at
minute 100, is cleared and the cycle equals the unquarantined one. -/
theorem c7_quarentena_expira_witness :
    Improved.passo1 ⟨true, some 100⟩ 100 = ⟨false, none⟩ ∧
    Improved.verificar_monitoramentos ⟨true, some 100⟩ 100 true true []
      = Improved.verificar_monitoramentos ⟨false, none⟩ 100 true true [] :=
  c7_quarentena_expira ⟨true, some 100⟩ 100 100 true true [] rfl rfl (by decide)

/-- Claim C8 counterexample: HTTP 201 is in the 200 range, yet
`verificar_link_detalhado` classifies it as `http_other`, not as
success — only the exact status 200 counts. -/
theorem c8_status_201_cex :
    verificar_link_detalhado (.response 201) = (false, .http_other) ∧
    200 ≤ 201 ∧ 201 < 300 ∧
    (verificar_link_detalhado (.response 201)).2 ≠ TipoErro.sucesso := by
  refine ⟨by decide, by decide, by decide, by decide⟩

/-- Claim C8 (amended): every probe outcome is classified into the
closed eight-kind taxonomy; a response is a success exactly when its
status is 200 (not the whole 200 range, and only the exact status 404
yields the client-error kind); the online flag and the success kind
agree; exceptions map to timeout/DNS/connection/unknown. -/
theorem c8_classificacao :
    (∀ r, (verificar_link_detalhado r).2 = TipoErro.sucesso ↔ r = .response 200) ∧
    (∀ r, (verificar_link_detalhado r).1 = true ↔
      (verificar_link_detalhado r).2 = TipoErro.sucesso) ∧
    (∀ c, c ≠ 200 → c ≠ 404 → c < 500 →
      (verificar_link_detalhado (.response c)).2 = TipoErro.http_other) ∧
    verificar_link_detalhado (.response 404) = (false, .http_404) ∧
    verificar_link_detalhado (.response 500) = (false, .http_500) ∧
    verificar_link_detalhado .timeoutExc = (false, .timeout) ∧
    verificar_link_detalhado (.connExc true) = (false, .dns_error) ∧
    verificar_link_detalhado (.connExc false) = (false, .connection_error) ∧
    verificar_link_detalhado .otherExc = (false, .unknown) := by
  refine ⟨?_, ?_, ?_, by decide, by decide, by decide, by decide, by decide, by decide⟩
  · intro r
    cases r with
    | response c =>
        by_cases h200 : c = 200
        · subst h200; simp [verificar_link_detalhado]
        · by_cases h404 : c = 404
          · subst h404; simp [verificar_link_detalhado]
          · by_cases h500 : c ≥ 500 <;>
              simp [verificar_link_detalhado, h200, h404, h500]
    | timeoutExc => simp [verificar_link_detalhado]
    | connExc d => cases d <;> simp [verificar_link_detalhado]
    | otherExc => simp [verificar_link_detalhado]
  · intro r
    cases r with
    | response c =>
        by_cases h200 : c = 200
        · subst h200; simp [verificar_link_detalhado]
        · by_cases h404 : c = 404
          · subst h404; simp [verificar_link_detalhado]
          · by_cases h500 : c ≥ 500 <;>
              simp [verificar_link_detalhado, h200, h404, h500]
    | timeoutExc => simp [verificar_link_detalhado]
    | connExc d => cases d <;> simp [verificar_link_detalhado]
    | otherExc => simp [verificar_link_detalhado]
  · intro c h200 h404 h500
    simp [verificar_link_detalhado, h200, h404, not_le.mpr h500, Nat.not_le_of_lt h500]

/-- Claim C8 (amended) witness: the hypotheses of the `http_other`
clause hold at status 403, a 4xx code that is not 404. -/
theorem c8_classificacao_witness :
    (verificar_link_detalhado (.response 403)).2 = TipoErro.http_other :=
  c8_classificacao.2.2.1 403 (by decide) (by decide) (by decide)

/-- Claim C9 counterexample: in app_improved.py the remaining-day count
is taken on full datetimes.  Minute 64800 (midnight of day 45) and
minute 64801 fall on the same calendar date, yet for a sale date at
datetime 0 the first gives 0 remaining days and the second gives -1 —
the result depends on the time of day, not only on calendar dates. -/
theorem c9_hora_do_dia_cex :
    dataDe (45 * minutosPorDia) = dataDe (45 * minutosPorDia + 1) ∧
    Improved.dias_restantes_calc 0 (45 * minutosPorDia) = 0 ∧
    Improved.dias_restantes_calc 0 (45 * minutosPorDia + 1) = -1 := by
  refine ⟨by decide, by decide, by decide⟩

/-- Claim C9 (amended): app.py `calcular_dias_restantes` strips the
time-of-day from both the sale date and the current time (its value is
unchanged by truncating either argument to midnight), its deadline is
the sale date plus 45 calendar days, and its day count is the clamped
calendar difference; app_improved.py instead computes on full
datetimes, where one extra minute past midnight of the deadline day
flips the count from 0 to -1. -/
theorem c9_datas_calendario :
    (∀ dv now, App.calcular_dias_restantes dv now =
      App.calcular_dias_restantes (dataDe dv * minutosPorDia) (dataDe now * minutosPorDia)) ∧
    (∀ dv now,
      (App.calcular_dias_restantes dv now).2 = (dataDe dv + PRAZO_DAYS) * minutosPorDia ∧
      (App.calcular_dias_restantes dv now).1 = max 0 (dataDe dv + PRAZO_DAYS - dataDe now)) ∧
    (Improved.dias_restantes_calc 0 (45 * minutosPorDia) = 0 ∧
     Improved.dias_restantes_calc 0 (45 * minutosPorDia + 1) = -1) := by
  refine ⟨?_, ?_, by decide, by decide⟩
  · intro dv now
    simp [App.calcular_dias_restantes, dataDe_mul]
  · intro dv now
    simp [App.calcular_dias_restantes]

set_option maxHeartbeats 1000000 in
/-- Claim C10: the WhatsApp branch of app_improved.py's
`enviar_notificacao` is a placeholder that reports success
unconditionally, so for a WhatsApp item every attempted sale or
deadline notification sets its idempotency marker even though no
message was delivered (the Telegram outcome parameter is irrelevant). -/
theorem c10_whatsapp_stub :
    (∀ e, Improved.enviar_notificacao .whatsapp e = true) ∧
    (∀ mon now probe q ev ep, mon.tipo_notificacao = .whatsapp →
      ((Improved.processar_monitoramento mon now probe q ev ep).notif_venda_enviada = true →
        (Improved.processar_monitoramento mon now probe q ev ep).notificado_venda = some true) ∧
      ((Improved.processar_monitoramento mon now probe q ev ep).notif_prazo_enviada = true →
        (Improved.processar_monitoramento mon now probe q ev ep).notificado_prazo = some true)) := by
  constructor
  · intro e; rfl
  · intro mon now probe q ev ep hz
    simp only [Improved.processar_monitoramento]
    constructor <;>
    · split_ifs <;>
        simp_all [Improved.enviar_notificacao, Updates.vazio] <;>
        split_ifs <;> simp_all

/-- Claim C10 witness: a WhatsApp item on its third failure has the
sale marker set although the delivery parameter says nothing was
delivered. -/
theorem c10_whatsapp_stub_witness :
    (Improved.processar_monitoramento monZap 1440 (.response 404) false false false).notif_venda_enviada = true ∧
    (Improved.processar_monitoramento monZap 1440 (.response 404) false false false).notificado_venda = some true := by
  have h := (c10_whatsapp_stub.2 monZap 1440 (.response 404) false false false rfl).1
  exact ⟨by decide, h (by decide)⟩

/-- Claim C2: while quarantine is active no sale notification is
dispatched and neither sold flag nor sale marker is written, yet a
failing item's counter still increments; the sale marker is only ever
set on confirmed delivery; and a sale blocked by quarantine is
deferred, not dropped — the persisted row triggers the sale dispatch on
a later failing cycle once quarantine has cleared. -/
theorem c2_quarentena_suprime :
    (∀ mon now probe ev ep,
      (Improved.processar_monitoramento mon now probe true ev ep).notif_venda_enviada = false ∧
      (Improved.processar_monitoramento mon now probe true ev ep).carro_vendido = none ∧
      (Improved.processar_monitoramento mon now probe true ev ep).notificado_venda = none) ∧
    (∀ mon now probe q ev ep,
      (verificar_link_detalhado probe).1 = false →
      ¬ Improved.dias_restantes_calc mon.data_venda now < 0 →
      (Improved.processar_monitoramento mon now probe q ev ep).falhas_consecutivas
        = some (mon.falhas_consecutivas + 1)) ∧
    (∀ mon now probe q ev ep,
      (Improved.processar_monitoramento mon now probe q ev ep).notificado_venda = some true →
      Improved.enviar_notificacao mon.tipo_notificacao ev = true) ∧
    (∀ mon now1 now2 probe ev ep,
      (verificar_link_detalhado probe).1 = false →
      ¬ Improved.dias_restantes_calc mon.data_venda now1 < 0 →
      ¬ Improved.dias_restantes_calc mon.data_venda now2 < 0 →
      mon.falhas_consecutivas + 1 ≥
        Improved.falhas_necessarias (verificar_link_detalhado probe).2 →
      mon.carro_vendido = false → mon.notificado_venda = false →
      (Improved.processar_monitoramento mon now1 probe true ev ep).notif_venda_enviada = false ∧
      (Improved.processar_monitoramento
          (aplicar mon (Improved.processar_monitoramento mon now1 probe true ev ep))
          now2 probe false ev ep).notif_venda_enviada = true) :=
  ⟨quarentena_sem_venda,
   fun mon now probe q ev ep hoff hdias => falhas_incrementa mon now probe q ev ep hoff hdias,
   fun mon now probe q ev ep h => marcador_venda_entrega mon now probe q ev ep h,
   fun mon now1 now2 probe ev ep hoff h1 h2 hfal hvend hnot =>
     venda_adiada mon now1 now2 probe ev ep hoff h1 h2 hfal hvend hnot⟩

/-- Claim C2 witness: the deferred-sale clause at its third failing
probe — the quarantined cycle at minute 1440 dispatches nothing, the
clear cycle at minute 2880 attempts the sale notification. -/
theorem c2_quarentena_suprime_witness :
    (Improved.processar_monitoramento { monBase with falhas_consecutivas := 2 }
        1440 (.response 404) true true true).notif_venda_enviada = false ∧
    (Improved.processar_monitoramento
        (aplicar { monBase with falhas_consecutivas := 2 }
          (Improved.processar_monitoramento { monBase with falhas_consecutivas := 2 }
            1440 (.response 404) true true true))
        2880 (.response 404) false true true).notif_venda_enviada = true :=
  c2_quarentena_suprime.2.2.2 { monBase with falhas_consecutivas := 2 }
    1440 2880 (.response 404) true true
    (by decide) (by decide) (by decide) (by decide) rfl rfl

/-- Claim C4: for each notification kind, in both backends, the
idempotency marker enters the updates dict exactly when the dispatch
was attempted and the delivery call returned true; once a marker is set
on the row no further attempt or write happens; no update ever writes a
marker back to false, so persisting updates moves each marker from
false to true at most once. -/
theorem c4_marcadores_idempotentes :
    (∀ mon now probe q ev ep,
      ((Improved.processar_monitoramento mon now probe q ev ep).notificado_venda = some true ↔
        ((Improved.processar_monitoramento mon now probe q ev ep).notif_venda_enviada = true ∧
          Improved.enviar_notificacao mon.tipo_notificacao ev = true)) ∧
      (mon.notificado_venda = true →
        (Improved.processar_monitoramento mon now probe q ev ep).notif_venda_enviada = false ∧
        (Improved.processar_monitoramento mon now probe q ev ep).notificado_venda = none)) ∧
    (∀ mon now probe q ev ep,
      ((Improved.processar_monitoramento mon now probe q ev ep).notificado_prazo = some true ↔
        ((Improved.processar_monitoramento mon now probe q ev ep).notif_prazo_enviada = true ∧
          Improved.enviar_notificacao mon.tipo_notificacao ep = true)) ∧
      (mon.notificado_prazo = true →
        (Improved.processar_monitoramento mon now probe q ev ep).notif_prazo_enviada = false ∧
        (Improved.processar_monitoramento mon now probe q ev ep).notificado_prazo = none)) ∧
    (∀ mon now probe e1 e2 e3 e4,
      ((App.processar_monitoramento mon now probe e1 e2 e3 e4).notificado_expirado = some true ↔
        ((App.processar_monitoramento mon now probe e1 e2 e3 e4).notif_expirado_enviada = true ∧
          App.enviar_notificacao mon.tipo_notificacao e1 = true)) ∧
      (mon.notificado_expirado = true →
        (App.processar_monitoramento mon now probe e1 e2 e3 e4).notif_expirado_enviada = false ∧
        (App.processar_monitoramento mon now probe e1 e2 e3 e4).notificado_expirado = none)) ∧
    (∀ mon now probe e1 e2 e3 e4,
      ((App.processar_monitoramento mon now probe e1 e2 e3 e4).notificado_venda = some true ↔
        ((App.processar_monitoramento mon now probe e1 e2 e3 e4).notif_venda_enviada = true ∧
          App.enviar_notificacao mon.tipo_notificacao e2 = true)) ∧
      (mon.notificado_venda = true →
        (App.processar_monitoramento mon now probe e1 e2 e3 e4).notif_venda_enviada = false ∧
        (App.processar_monitoramento mon now probe e1 e2 e3 e4).notificado_venda = none) ∧
      ((App.processar_monitoramento mon now probe e1 e2 e3 e4).notificado_prazo = some true ↔
        ((App.processar_monitoramento mon now probe e1 e2 e3 e4).notif_prazo_enviada = true ∧
          App.enviar_notificacao mon.tipo_notificacao e3 = true)) ∧
      (mon.notificado_prazo = true →
        (App.processar_monitoramento mon now probe e1 e2 e3 e4).notif_prazo_enviada = false ∧
        (App.processar_monitoramento mon now probe e1 e2 e3 e4).notificado_prazo = none)) ∧
    (∀ mon now probe q ev ep e1 e2 e3 e4,
      ((Improved.processar_monitoramento mon now probe q ev ep).notificado_venda ≠ some false ∧
       (Improved.processar_monitoramento mon now probe q ev ep).notificado_prazo ≠ some false ∧
       (Improved.processar_monitoramento mon now probe q ev ep).notificado_expirado ≠ some false) ∧
      ((App.processar_monitoramento mon now probe e1 e2 e3 e4).notificado_venda ≠ some false ∧
       (App.processar_monitoramento mon now probe e1 e2 e3 e4).notificado_prazo ≠ some false ∧
       (App.processar_monitoramento mon now probe e1 e2 e3 e4).notificado_expirado ≠ some false)) ∧
    (∀ mon u,
      (u.notificado_venda ≠ some false → mon.notificado_venda = true →
        (aplicar mon u).notificado_venda = true) ∧
      (u.notificado_prazo ≠ some false → mon.notificado_prazo = true →
        (aplicar mon u).notificado_prazo = true) ∧
      (u.notificado_expirado ≠ some false → mon.notificado_expirado = true →
        (aplicar mon u).notificado_expirado = true)) :=
  ⟨fun mon now probe q ev ep =>
     ⟨venda_iff_entrega mon now probe q ev ep,
      fun h => venda_ja_notificada mon now probe q ev ep h⟩,
   fun mon now probe q ev ep => prazo_iff_entrega mon now probe q ev ep,
   fun mon now probe e1 e2 e3 e4 => app_expirado_iff_entrega mon now probe e1 e2 e3 e4,
   fun mon now probe e1 e2 e3 e4 => app_venda_prazo_iff_entrega mon now probe e1 e2 e3 e4,
   fun mon now probe q ev ep e1 e2 e3 e4 =>
     marcadores_nunca_false mon now probe q ev ep e1 e2 e3 e4,
   aplicar_marcadores_mono⟩

/-- Claim C4 witness: an item whose sale marker is already set gets no
second sale dispatch and no marker write, even on a failing probe past
the threshold. -/
theorem c4_marcadores_idempotentes_witness :
    (Improved.processar_monitoramento
        { monBase with falhas_consecutivas := 5, notificado_venda := true }
        1440 (.response 404) false true true).notif_venda_enviada = false ∧
    (Improved.processar_monitoramento
        { monBase with falhas_consecutivas := 5, notificado_venda := true }
        1440 (.response 404) false true true).notificado_venda = none :=
  (c4_marcadores_idempotentes.1
    { monBase with falhas_consecutivas := 5, notificado_venda := true }
    1440 (.response 404) false true true).2 rfl

/-- Claim C3 counterexample: a batch consisting of one item that
expires this cycle with stored consecutiveFailures = 1.  After the
cycle the stored counter is still positive, so the claim's ratio is
1/1 = 100% ≥ 70%, yet the code counts only items whose update carries a
positive counter: it records no health row and activates no
quarantine. -/
theorem c3_expirado_cex :
    total_falhas_spec
      (Improved.verificar_monitoramentos ⟨false, none⟩ 66240 true true [itemQueExpira]).updates_list = 1 ∧
    porcentagem_de 1 1 = 100 ∧ ((100 : ℚ) ≥ (LIMITE_FALHAS_SISTEMICAS : ℚ)) ∧
    (Improved.verificar_monitoramentos ⟨false, none⟩ 66240 true true [itemQueExpira]).health = none ∧
    (Improved.verificar_monitoramentos ⟨false, none⟩ 66240 true true [itemQueExpira]).quarentena
      = ⟨false, none⟩ := by
  have h := ciclo_caracterizacao ⟨false, none⟩ 66240 [itemQueExpira] (by decide)
  have hul := h.2.1
  have htot : total_falhas_contadas
      (Improved.verificar_monitoramentos ⟨false, none⟩ 66240 true true [itemQueExpira]).updates_list = 0 := by
    rw [hul]; decide
  have hneg := h.2.2.2 (by
    rw [htot]
    norm_num [porcentagem_de, LIMITE_FALHAS_SISTEMICAS])
  refine ⟨?_, ?_, ?_, hneg.1, ?_⟩
  · rw [hul]; decide
  · norm_num [porcentagem_de]
  · norm_num [LIMITE_FALHAS_SISTEMICAS]
  · rw [hneg.2]; rfl

/-- Claim C3 (amended): for a non-aborted cycle with both preflights
green, the counted failure total is the number of batch items that did
not expire this cycle and whose stored counter is positive after their
update is applied (not the count over all items), the percentage is
that total over the batch size times 100, and the cycle records a
health row with exactly those numbers and quarantines until
now + 30 min precisely when the percentage reaches 70%. -/
theorem c3_limiar_sistemico (q : Quarentena) (now : Int) (batch : List ItemCiclo)
    (hb : batch ≠ []) :
    (Improved.verificar_monitoramentos q now true true batch).abortado = false ∧
    (Improved.verificar_monitoramentos q now true true batch).updates_list
      = batch.map (fun ic => (ic.mon,
          Improved.processar_monitoramento ic.mon now ic.probe (Improved.passo1 q now).ativa
            ic.entrega_venda ic.entrega_prazo)) ∧
    total_falhas_contadas (Improved.verificar_monitoramentos q now true true batch).updates_list
      = ((Improved.verificar_monitoramentos q now true true batch).updates_list.filter
          fun mu => mu.2.status == none &&
            decide ((aplicar mu.1 mu.2).falhas_consecutivas > 0)).length ∧
    (porcentagem_de
        (total_falhas_contadas (Improved.verificar_monitoramentos q now true true batch).updates_list)
        batch.length ≥ (LIMITE_FALHAS_SISTEMICAS : ℚ) →
      (Improved.verificar_monitoramentos q now true true batch).health
        = some ⟨batch.length,
            total_falhas_contadas (Improved.verificar_monitoramentos q now true true batch).updates_list,
            porcentagem_de
              (total_falhas_contadas (Improved.verificar_monitoramentos q now true true batch).updates_list)
              batch.length, false⟩ ∧
      (Improved.verificar_monitoramentos q now true true batch).quarentena
        = ⟨true, some (now + QUARENTENA_MINUTOS)⟩) ∧
    (¬ porcentagem_de
        (total_falhas_contadas (Improved.verificar_monitoramentos q now true true batch).updates_list)
        batch.length ≥ (LIMITE_FALHAS_SISTEMICAS : ℚ) →
      (Improved.verificar_monitoramentos q now true true batch).health = none ∧
      (Improved.verificar_monitoramentos q now true true batch).quarentena
        = Improved.passo1 q now) := by
  have h := ciclo_caracterizacao q now batch hb
  refine ⟨h.1, h.2.1, ?_, h.2.2.1, h.2.2.2⟩
  rw [h.2.1]
  unfold total_falhas_contadas
  congr 1
  apply List.filter_congr
  intro x hx
  rcases List.mem_map.mp hx with ⟨ic, -, rfl⟩
  exact conta_falhas_eq ic.mon now ic.probe (Improved.passo1 q now).ativa
    ic.entrega_venda ic.entrega_prazo

/-- Claim C3 (amended) witness: ten items, eight failing probes — the
cycle records a health row ⟨10, 8, 80%, unhealthy⟩ and quarantines
until minute 1470 = 1440 + 30. -/
theorem c3_limiar_sistemico_witness :
    (Improved.verificar_monitoramentos ⟨false, none⟩ 1440 true true loteDez).health
      = some ⟨10, 8, porcentagem_de 8 10, false⟩ ∧
    (Improved.verificar_monitoramentos ⟨false, none⟩ 1440 true true loteDez).quarentena
      = ⟨true, some 1470⟩ ∧
    porcentagem_de 8 10 = 80 := by
  have h := c3_limiar_sistemico ⟨false, none⟩ 1440 loteDez (by decide)
  have htot : total_falhas_contadas
      (Improved.verificar_monitoramentos ⟨false, none⟩ 1440 true true loteDez).updates_list = 8 := by
    rw [h.2.1]; decide
  have hlen : loteDez.length = 10 := rfl
  have hpos := h.2.2.2.1 (by
    rw [htot, hlen]
    norm_num [porcentagem_de, LIMITE_FALHAS_SISTEMICAS])
  rw [htot] at hpos
  refine ⟨hpos.1, hpos.2, by norm_num [porcentagem_de]⟩

end Kavak
